import Mathlib

/-!
Verification of the LLMP restarting event manager
(`libafl/src/events/llmp/restarting.rs`).

The development shallowly embeds the checkpoint protocol
(`LlmpRestartingEventManager`: `fire`, `on_restart`, `process`,
`intermediate_save`), the supervisor loop and exit classification inside
`RestartingMgr::launch`, the worker-side restore path of `launch`, and the
builder defaults.

External primitives that the file under verification only consumes
(`StateRestorer` from `libafl_bolts::staterestore`, `LlmpShouldSaveState`
from `crate::events`, `CTRL_C_EXIT` from `libafl_bolts::os`) are modelled
from the specification, as noted on each definition.  Fallible external
sub-calls (serialization, the LLMP bus operations) are modelled on their
success path; OS-level effects (fork, signals, shared memory) are inputs
to the model.
-/

namespace LibAFL

/-- Modelled from the spec: the save-state policy `LlmpShouldSaveState`
(declared in `crate::events`, outside this repository slice).  Tagged
variant `Never` / `OnRestart` / `OOMSafe`; fixed at construction. -/
inductive LlmpShouldSaveState
  | Never
  | OnRestart
  | OOMSafe
deriving DecidableEq, Repr

/-- Modelled from the spec: `LlmpShouldSaveState::on_restart()` — whether the
policy permits serializing the durable state at an explicit restart call.
`Never` forbids any state snapshot; the other two permit it. -/
def LlmpShouldSaveState.on_restart : LlmpShouldSaveState → Bool
  | .Never => false
  | .OnRestart => true
  | .OOMSafe => true

/-- Modelled from the spec: `LlmpShouldSaveState::oom_safe()` — whether the
policy asks for an eager ("intermediate") save after every externally
visible event.  Only `OOMSafe` does. -/
def LlmpShouldSaveState.oom_safe : LlmpShouldSaveState → Bool
  | .Never => false
  | .OnRestart => false
  | .OOMSafe => true

theorem oom_safe_eq_false_iff (p : LlmpShouldSaveState) :
    p.oom_safe = false ↔ p ≠ .OOMSafe := by
  cases p <;> simp [LlmpShouldSaveState.oom_safe]

/-- Modelled from the spec: the State-Transfer Channel
(`StateRestorer` of `libafl_bolts::staterestore`, outside this repository
slice): a single-slot shared-memory region holding at most one pending
payload — an optional serialized durable state paired with a reconnection
descriptor — plus a wants-to-exit flag.  `St` is the durable-state type,
`D` the descriptor type. -/
structure StateRestorer (St D : Type) where
  content : Option (Option St × D)
  wantsExit : Bool

/-- Modelled from the spec: `StateRestorer::reset` empties the single slot. -/
def StateRestorer.reset {St D : Type} (sr : StateRestorer St D) :
    StateRestorer St D :=
  { sr with content := none }

/-- Modelled from the spec: `StateRestorer::save` publishes a payload,
overwriting the slot (never appending). -/
def StateRestorer.save {St D : Type} (sr : StateRestorer St D)
    (p : Option St × D) : StateRestorer St D :=
  { sr with content := some p }

/-- Modelled from the spec: `StateRestorer::has_content`. -/
def StateRestorer.has_content {St D : Type} (sr : StateRestorer St D) : Bool :=
  sr.content.isSome

/-- Modelled from the spec: `StateRestorer::wants_to_exit`. -/
def StateRestorer.wants_to_exit {St D : Type} (sr : StateRestorer St D) : Bool :=
  sr.wantsExit

/-- Modelled from the spec: `StateRestorer::restore` consumes the slot's
payload, if any. -/
def StateRestorer.restore {St D : Type} (sr : StateRestorer St D) :
    Option (Option St × D) :=
  sr.content

/-- Where a worker's LLMP endpoint was built from: rebuilt from a payload's
reconnection descriptor (`build_existing_client_from_description`), or from
the initial broker-client environment handle
(`build_existing_client_from_env(_ENV_FUZZER_BROKER_CLIENT_INITIAL)`). -/
inductive EndpointSource (D : Type)
  | fromDescription (d : D)
  | fromEnv
deriving DecidableEq, Repr

/-- The LLMP event manager (`LlmpEventManager`), abstracted to what the
claims read off it: its current reconnection descriptor (what `describe()`
returns) and how it was built. -/
structure LlmpEventManager (D : Type) where
  descriptor : D
  origin : EndpointSource D

/-- `LlmpEventManager::describe()` — the endpoint's current reconnection
descriptor, regenerated from the live handle. -/
def LlmpEventManager.describe {D : Type} (m : LlmpEventManager D) : D :=
  m.descriptor

/-- `LlmpEventManager::builder()...build_existing_client_from_description`:
the endpoint is rebuilt from a payload's reconnection descriptor. -/
def LlmpEventManager.buildFromDescription {D : Type} (d : D) :
    LlmpEventManager D :=
  { descriptor := d, origin := .fromDescription d }

/-- `LlmpEventManager::builder()...build_existing_client_from_env`: the
endpoint is rebuilt from the initial broker-client environment handle. -/
def LlmpEventManager.buildFromEnv {D : Type} (envDescriptor : D) :
    LlmpEventManager D :=
  { descriptor := envDescriptor, origin := .fromEnv }

/-- `LlmpRestartingEventManager`: the embedded LLMP event manager, the
staterestorer, and the save-state policy (restarting.rs lines 59-69). -/
structure LlmpRestartingEventManager (St D : Type) where
  llmp_mgr : LlmpEventManager D
  staterestorer : StateRestorer St D
  save_state : LlmpShouldSaveState

/-- `LlmpRestartingEventManager::new` (restarting.rs lines 256-262): the
save-state policy is hard-wired to `OnRestart`. -/
def LlmpRestartingEventManager.new {St D : Type} (llmp_mgr : LlmpEventManager D)
    (staterestorer : StateRestorer St D) : LlmpRestartingEventManager St D :=
  { llmp_mgr := llmp_mgr, staterestorer := staterestorer,
    save_state := .OnRestart }

/-- `LlmpRestartingEventManager::with_save_state` (restarting.rs
lines 265-275). -/
def LlmpRestartingEventManager.with_save_state {St D : Type}
    (llmp_mgr : LlmpEventManager D) (staterestorer : StateRestorer St D)
    (save_state : LlmpShouldSaveState) : LlmpRestartingEventManager St D :=
  { llmp_mgr := llmp_mgr, staterestorer := staterestorer,
    save_state := save_state }

/-- One observable action of the checkpoint protocol on the State-Transfer
Channel or the LLMP endpoint, recorded in order of execution.  `forward`
is the embedded manager forwarding an event on the bus, `processEvents`
is the embedded manager handling `n` incoming events, `chanReset` /
`chanSave` are `StateRestorer::reset` / `StateRestorer::save`, and
`awaitRestartSafe` is the blocking `await_restart_safe` rendezvous. -/
inductive MgrAction (E St D : Type)
  | forward (e : E)
  | processEvents (n : Nat)
  | chanReset
  | chanSave (p : Option St × D)
  | awaitRestartSafe

/-- The durable-state halves of the payloads a trace publishes, in order. -/
def savedSnapshots {E St D : Type} : List (MgrAction E St D) → List (Option St)
  | [] => []
  | .chanSave p :: rest => p.1 :: savedSnapshots rest
  | _ :: rest => savedSnapshots rest

/-- `LlmpRestartingEventManager::intermediate_save` (restarting.rs
lines 288-296): only when the policy is OOM-safe, reset the page to 0 and
save an empty state together with the current LLMP description.  Returns
the updated manager and the trace of channel actions it performed. -/
def LlmpRestartingEventManager.intermediate_save {E St D : Type}
    (m : LlmpRestartingEventManager St D) :
    LlmpRestartingEventManager St D × List (MgrAction E St D) :=
  if m.save_state.oom_safe then
    let sr := (m.staterestorer.reset).save (none, m.llmp_mgr.describe)
    ({ m with staterestorer := sr },
     [.chanReset, .chanSave (none, m.llmp_mgr.describe)])
  else
    (m, [])

/-- `EventFirer::fire` for `LlmpRestartingEventManager` (restarting.rs
lines 140-145): forward the event through the embedded manager, then
`intermediate_save`.  The embedded manager's own fallible send is modelled
on its success path. -/
def LlmpRestartingEventManager.fire {E St D : Type}
    (m : LlmpRestartingEventManager St D) (e : E) :
    LlmpRestartingEventManager St D × List (MgrAction E St D) :=
  let r := m.intermediate_save (E := E)
  (r.1, .forward e :: r.2)

/-- `EventRestarter::on_restart` for `LlmpRestartingEventManager`
(restarting.rs lines 169-186): reset the page to 0, save the pair of
(the state, when the policy permits, else `None`) and the current LLMP
description, then block in `await_restart_safe`.  The `state.on_restart()`
bookkeeping hook touches neither the channel nor the endpoint and is not
recorded. -/
def LlmpRestartingEventManager.on_restart {E St D : Type}
    (m : LlmpRestartingEventManager St D) (state : St) :
    LlmpRestartingEventManager St D × List (MgrAction E St D) :=
  let payload : Option St × D :=
    (if m.save_state.on_restart then some state else none, m.llmp_mgr.describe)
  let sr := (m.staterestorer.reset).save payload
  ({ m with staterestorer := sr },
   [.chanReset, .chanSave payload, .awaitRestartSafe])

/-- `EventProcessor::process` for `LlmpRestartingEventManager`
(restarting.rs lines 224-228): let the embedded manager process incoming
events (their number `n` is an input from the bus), then
`intermediate_save`. -/
def LlmpRestartingEventManager.process {E St D : Type}
    (m : LlmpRestartingEventManager St D) (n : Nat) :
    LlmpRestartingEventManager St D × List (MgrAction E St D) :=
  let r := m.intermediate_save (E := E)
  (r.1, .processEvents n :: r.2)

/-- `ManagerKind` (restarting.rs lines 300-311).  The client description is
abstracted to its numeric identity. -/
inductive ManagerKind
  | Any
  | Client (client_description : Nat)
  | Broker
deriving DecidableEq, Repr

/-- The `#[builder(default = ...)]` values of `RestartingMgr`'s typed
builder (restarting.rs lines 383-419), as one record: a field a caller does
not set takes the value recorded here. -/
structure RestartingMgrDefaults where
  broker_port : Nat
  kind : ManagerKind
  serialize_state : LlmpShouldSaveState
  remote_broker_addr : Option Nat
  exit_cleanly_after : Option Nat
deriving DecidableEq, Repr

/-- The defaults declared on `RestartingMgr` (restarting.rs lines 391-416):
`broker_port = 1337_u16`, `kind = ManagerKind::Any`,
`serialize_state = LlmpShouldSaveState::OnRestart`,
`remote_broker_addr = None`, `exit_cleanly_after = None`. -/
def RestartingMgrDefaults.declared : RestartingMgrDefaults :=
  { broker_port := 1337, kind := .Any, serialize_state := .OnRestart,
    remote_broker_addr := none, exit_cleanly_after := none }

/-- Modelled from the spec: `CTRL_C_EXIT` of `libafl_bolts::os` (outside
this repository slice) — the reserved "interrupted by operator" sentinel
exit code.  The classification logic only compares against it, so its
concrete value is irrelevant to the claims. -/
def CTRL_C_EXIT : Int := 100

/-- What the supervisor observes about one terminated child instance:
the exit status recorded in `WaitingOnChild`, and the channel's
`wants_to_exit()` / `has_content()` flags at classification time (both
written by the child before it died, so they are inputs here). -/
structure ChildOutcome where
  status : Int
  wantsExit : Bool
  hasContent : Bool
deriving DecidableEq, Repr

/-- The decision the supervisor loop takes for one terminated child
(restarting.rs lines 586-605). -/
inductive SupervisorDecision
  | shutDown
  | fatalSigkill
  | fatalNoCheckpoint
  | respawn
deriving DecidableEq, Repr

/-- The exit classification of restarting.rs lines 586-605, in source
order: first `child_status == CTRL_C_EXIT || staterestorer.wants_to_exit()`
(detach, `Err(Error::shutting_down())`); then
`!staterestorer.has_content() && !self.serialize_state.oom_safe()`
(detach, then on unix `assert_ne!(9, child_status, ..)` — so status 9 dies
with the SIGKILL/OOM diagnostic — else the
"storing state did not work" panic); otherwise fall through to the next
loop iteration. -/
def classifyChild (policy : LlmpShouldSaveState) (o : ChildOutcome) :
    SupervisorDecision :=
  if o.status == CTRL_C_EXIT || o.wantsExit then
    .shutDown
  else if !o.hasContent && !policy.oom_safe then
    (if o.status == 9 then .fatalSigkill else .fatalNoCheckpoint)
  else
    .respawn

/-- Whether a decision's branch calls `mgr.detach_from_broker` (both the
shutdown branch and the fatal branch do; a respawn does not). -/
def SupervisorDecision.detaches : SupervisorDecision → Bool
  | .shutDown => true
  | .fatalSigkill => true
  | .fatalNoCheckpoint => true
  | .respawn => false

/-- The modulus of the `u64` generation counter `ctr`. -/
def U64_MOD : Nat := 2 ^ 64

/-- `ctr = ctr.wrapping_add(1)` (restarting.rs line 604): the `u64`
counter advances by one, wrapping modulo `2^64`. -/
def nextCtr (c : Nat) : Nat := (c + 1) % U64_MOD

/-- How the supervisor loop ended (or has not). `stillRunning` means every
scripted outcome was consumed by a respawn and a fresh instance is live. -/
inductive LoopExit
  | shuttingDown
  | panicSigkill
  | panicNoCheckpoint
  | stillRunning
deriving DecidableEq, Repr

/-- The observable outcome of the supervisor loop: how it ended, how many
instances it launched, the final value of `ctr`, and whether it detached
from the broker. -/
structure LoopResult where
  exit : LoopExit
  launched : Nat
  ctr : Nat
  detached : Bool
deriving DecidableEq, Repr

/-- The client-parent loop of `RestartingMgr::launch` (restarting.rs
lines 536-605), run over a script of child outcomes: each list element is
what one launched instance's termination looks like to the supervisor.
Per iteration: launch (fork/spawn) one instance, wait, classify; on
`shutDown` detach and return `Err(Error::shutting_down())`; on a fatal
classification detach and abort with the corresponding diagnostic; on
`respawn` advance `ctr` with `wrapping_add(1)` and iterate. -/
def supervisorLoop (policy : LlmpShouldSaveState) :
    Nat → List ChildOutcome → LoopResult
  | c, [] => { exit := .stillRunning, launched := 1, ctr := c, detached := false }
  | c, o :: rest =>
    match classifyChild policy o with
    | .shutDown =>
        { exit := .shuttingDown, launched := 1, ctr := c, detached := true }
    | .fatalSigkill =>
        { exit := .panicSigkill, launched := 1, ctr := c, detached := true }
    | .fatalNoCheckpoint =>
        { exit := .panicNoCheckpoint, launched := 1, ctr := c, detached := true }
    | .respawn =>
        let r := supervisorLoop policy (nextCtr c) rest
        { r with launched := r.launched + 1 }

/-- The number of outcomes the loop answers with a respawn before it
stops (each one increments `ctr` exactly once). -/
def countRespawns (policy : LlmpShouldSaveState) : List ChildOutcome → Nat
  | [] => 0
  | o :: rest =>
    match classifyChild policy o with
    | .respawn => countRespawns policy rest + 1
    | _ => 0

/-- Errors surfaced by `launch` on the broker paths: `Error::shutting_down()`,
some other propagated error (abstracted to its numeric payload), or the
`unreachable!` panic after `broker_things` on the `ManagerKind::Broker`
path. -/
inductive LaunchError
  | shuttingDown
  | other (e : Nat)
  | panicked
deriving DecidableEq, Repr

/-- The `broker_things` closure (restarting.rs lines 436-452): optionally
bridge to a remote broker (`connect_b2b`, whose external outcome is the
input `connectOutcome` and is propagated with `?` on failure), optionally
set the exit threshold, run `loop_with_timeouts` until it returns, then
return `Err(Error::shutting_down())` — never `Ok`. -/
def broker_things (remote_broker_addr : Option Nat)
    (connectOutcome : Except Nat Unit) : Except LaunchError Unit :=
  match remote_broker_addr with
  | some _ =>
    match connectOutcome with
    | .error e => .error (.other e)
    | .ok _ => .error .shuttingDown
  | none => .error .shuttingDown

/-- The `ManagerKind::Any` / `IsBroker` arm of `launch` (restarting.rs
lines 459-476): run `broker_things` (propagating its error with `?`), then
`return Err(Error::shutting_down())`. -/
def launchBrokerAny (remote_broker_addr : Option Nat)
    (connectOutcome : Except Nat Unit) : Except LaunchError Unit :=
  match broker_things remote_broker_addr connectOutcome with
  | .error e => .error e
  | .ok _ => .error .shuttingDown

/-- The `ManagerKind::Broker` arm of `launch` (restarting.rs
lines 489-500): run `broker_things` (propagating its error with `?`), then
`unreachable!`, modelled as the `panicked` error. -/
def launchBrokerForced (remote_broker_addr : Option Nat)
    (connectOutcome : Except Nat Unit) : Except LaunchError Unit :=
  match broker_things remote_broker_addr connectOutcome with
  | .error e => .error e
  | .ok _ => .error .panicked

/-- The tail of `launch` run by every new worker instance just before
`launch` returns (restarting.rs lines 670-675): if the policy is OOM-safe,
`intermediate_save` (reset then republish an empty-state payload);
otherwise plain `staterestorer.reset()`. -/
def launchEpilogue {E St D : Type} (m : LlmpRestartingEventManager St D) :
    LlmpRestartingEventManager St D × List (MgrAction E St D) :=
  if m.save_state.oom_safe then
    m.intermediate_save (E := E)
  else
    ({ m with staterestorer := m.staterestorer.reset }, [.chanReset])

/-- The worker side of `launch` (restarting.rs lines 606-615 and 630-683):
the channel was imported from `_ENV_FUZZER_SENDER` (spawn path) or
inherited over the fork (`chan`); `staterestorer.restore()` is attempted.
With a payload `(state_opt, mgr_description)` present, the endpoint is
rebuilt from the description and `state_opt` is returned; with none, the
endpoint is rebuilt from `_ENV_FUZZER_BROKER_CLIENT_INITIAL`
(`envDescriptor`) and `None` is returned.  Either way the manager carries
`self.serialize_state` and runs the epilogue before `launch` returns. -/
def launchWorkerSide {St D : Type} (serialize_state : LlmpShouldSaveState)
    (chan : StateRestorer St D) (envDescriptor : D) :
    Option St × LlmpRestartingEventManager St D :=
  match chan.restore with
  | some (state_opt, mgr_description) =>
    let llmp := LlmpEventManager.buildFromDescription mgr_description
    let mgr := LlmpRestartingEventManager.with_save_state llmp chan
      serialize_state
    (state_opt, (launchEpilogue (E := Unit) mgr).1)
  | none =>
    let llmp := LlmpEventManager.buildFromEnv envDescriptor
    let mgr := LlmpRestartingEventManager.with_save_state llmp chan
      serialize_state
    (none, (launchEpilogue (E := Unit) mgr).1)

theorem one_le_launched (policy : LlmpShouldSaveState) (os : List ChildOutcome) :
    ∀ c : Nat, 1 ≤ (supervisorLoop policy c os).launched := by
  induction os with
  | nil => intro c; simp [supervisorLoop]
  | cons o rest ih =>
    intro c
    simp only [supervisorLoop]
    cases hc : classifyChild policy o <;> simp [hc]

/-- C1: in the supervisor loop, a child exit code equal to `CTRL_C_EXIT`, or
the channel reporting wants-to-exit, makes the supervisor detach from the
broker and return `Err(Error::shutting_down())`, launching no further
instance — whatever the channel content, the policy, the counter, and the
rest of the script. -/
theorem interrupt_detaches_and_stops
    (policy : LlmpShouldSaveState) (c : Nat) (o : ChildOutcome)
    (rest : List ChildOutcome)
    (h : o.status = CTRL_C_EXIT ∨ o.wantsExit = true) :
    classifyChild policy o = .shutDown ∧
    (classifyChild policy o).detaches = true ∧
    supervisorLoop policy c (o :: rest) =
      { exit := .shuttingDown, launched := 1, ctr := c, detached := true } := by
  have hb : (o.status == CTRL_C_EXIT || o.wantsExit) = true := by
    rcases h with h | h <;> simp [h]
  have hcls : classifyChild policy o = .shutDown := by
    simp [classifyChild, hb]
  exact ⟨hcls, by simp [hcls, SupervisorDecision.detaches],
    by simp [supervisorLoop, hcls]⟩

theorem interrupt_detaches_and_stops_witness :
    classifyChild .OnRestart ⟨CTRL_C_EXIT, false, true⟩ = .shutDown ∧
    (classifyChild .OnRestart ⟨CTRL_C_EXIT, false, true⟩).detaches = true ∧
    supervisorLoop .OnRestart 0
        [⟨CTRL_C_EXIT, false, true⟩, ⟨0, false, true⟩] =
      { exit := .shuttingDown, launched := 1, ctr := 0, detached := true } :=
  interrupt_detaches_and_stops .OnRestart 0 ⟨CTRL_C_EXIT, false, true⟩
    [⟨0, false, true⟩] (Or.inl rfl)

/-- C2: when the interrupt check did not fire, the channel has no content,
and the policy is not OOM-safe, the supervisor detaches and dies fatally
without launching another instance; the diagnostic distinguishes exit
status 9 (the unix `assert_ne!(9, child_status, ..)` SIGKILL/OOM message)
from every other status (the "storing state did not work" panic). -/
theorem crash_without_checkpoint_fatal
    (policy : LlmpShouldSaveState) (c : Nat) (o : ChildOutcome)
    (rest : List ChildOutcome)
    (hstat : o.status ≠ CTRL_C_EXIT) (hexit : o.wantsExit = false)
    (hcont : o.hasContent = false) (hpol : policy ≠ .OOMSafe) :
    classifyChild policy o =
      (if o.status = 9 then .fatalSigkill else .fatalNoCheckpoint) ∧
    (classifyChild policy o).detaches = true ∧
    supervisorLoop policy c (o :: rest) =
      { exit := if o.status = 9 then .panicSigkill else .panicNoCheckpoint,
        launched := 1, ctr := c, detached := true } := by
  have hos : policy.oom_safe = false := (oom_safe_eq_false_iff policy).mpr hpol
  have hb : (o.status == CTRL_C_EXIT || o.wantsExit) = false := by
    simp [hexit, hstat]
  have hcls : classifyChild policy o =
      (if o.status = 9 then .fatalSigkill else .fatalNoCheckpoint) := by
    simp [classifyChild, hb, hcont, hos]
  refine ⟨hcls, ?_, ?_⟩
  · rw [hcls]
    by_cases h9 : o.status = 9 <;> simp [h9, SupervisorDecision.detaches]
  · simp only [supervisorLoop, hcls]
    by_cases h9 : o.status = 9 <;> simp [h9]

theorem crash_without_checkpoint_fatal_witness :
    supervisorLoop .OnRestart 0 [⟨9, false, false⟩] =
      { exit := .panicSigkill, launched := 1, ctr := 0, detached := true } ∧
    supervisorLoop .Never 5 [⟨1, false, false⟩] =
      { exit := .panicNoCheckpoint, launched := 1, ctr := 5,
        detached := true } := by
  constructor
  · simpa using
      (crash_without_checkpoint_fatal .OnRestart 0 ⟨9, false, false⟩ []
        (by decide) rfl rfl (by decide)).2.2
  · simpa using
      (crash_without_checkpoint_fatal .Never 5 ⟨1, false, false⟩ []
        (by decide) rfl rfl (by decide)).2.2

/-- C3: a termination not classified as an interrupt, with channel content
present or (channel empty but) an OOM-safe policy, is answered with a
respawn: the loop recurses on the rest of the script and at least one
further instance is launched. -/
theorem recoverable_crash_respawns
    (policy : LlmpShouldSaveState) (c : Nat) (o : ChildOutcome)
    (rest : List ChildOutcome)
    (hstat : o.status ≠ CTRL_C_EXIT) (hexit : o.wantsExit = false)
    (h : o.hasContent = true ∨ policy = .OOMSafe) :
    classifyChild policy o = .respawn ∧
    supervisorLoop policy c (o :: rest) =
      { exit := (supervisorLoop policy (nextCtr c) rest).exit,
        launched := (supervisorLoop policy (nextCtr c) rest).launched + 1,
        ctr := (supervisorLoop policy (nextCtr c) rest).ctr,
        detached := (supervisorLoop policy (nextCtr c) rest).detached } ∧
    2 ≤ (supervisorLoop policy c (o :: rest)).launched := by
  have hb : (o.status == CTRL_C_EXIT || o.wantsExit) = false := by
    simp [hexit, hstat]
  have hcls : classifyChild policy o = .respawn := by
    rcases h with h | h
    · simp [classifyChild, hb, h]
    · simp [classifyChild, hb, h, LlmpShouldSaveState.oom_safe]
  have hloop : supervisorLoop policy c (o :: rest) =
      { exit := (supervisorLoop policy (nextCtr c) rest).exit,
        launched := (supervisorLoop policy (nextCtr c) rest).launched + 1,
        ctr := (supervisorLoop policy (nextCtr c) rest).ctr,
        detached := (supervisorLoop policy (nextCtr c) rest).detached } := by
    simp [supervisorLoop, hcls]
  refine ⟨hcls, hloop, ?_⟩
  rw [hloop]
  show 2 ≤ (supervisorLoop policy (nextCtr c) rest).launched + 1
  have := one_le_launched policy rest (nextCtr c)
  omega

theorem recoverable_crash_respawns_witness :
    2 ≤ (supervisorLoop .Never 0 [⟨1, false, true⟩]).launched ∧
    2 ≤ (supervisorLoop .OOMSafe 0 [⟨1, false, false⟩]).launched :=
  ⟨(recoverable_crash_respawns .Never 0 ⟨1, false, true⟩ []
      (by decide) rfl (Or.inl rfl)).2.2,
   (recoverable_crash_respawns .OOMSafe 0 ⟨1, false, false⟩ []
      (by decide) rfl (Or.inr rfl)).2.2⟩

theorem U64_MOD_pos : 0 < U64_MOD := by
  norm_num [U64_MOD]

theorem loop_result_ctr_independent (policy : LlmpShouldSaveState)
    (os : List ChildOutcome) : ∀ c c' : Nat,
    (supervisorLoop policy c os).exit = (supervisorLoop policy c' os).exit ∧
    (supervisorLoop policy c os).launched =
      (supervisorLoop policy c' os).launched ∧
    (supervisorLoop policy c os).detached =
      (supervisorLoop policy c' os).detached := by
  induction os with
  | nil => intro c c'; simp [supervisorLoop]
  | cons o rest ih =>
    intro c c'
    simp only [supervisorLoop]
    cases hc : classifyChild policy o <;> simp [hc]
    obtain ⟨h1, h2, h3⟩ := ih (nextCtr c) (nextCtr c')
    exact ⟨h1, by rw [h2], h3⟩

theorem loop_ctr_counts_respawns (policy : LlmpShouldSaveState)
    (os : List ChildOutcome) : ∀ c : Nat, c < U64_MOD →
    (supervisorLoop policy c os).ctr =
      (c + countRespawns policy os) % U64_MOD := by
  induction os with
  | nil =>
    intro c hc
    simp [supervisorLoop, countRespawns, Nat.mod_eq_of_lt hc]
  | cons o rest ih =>
    intro c hc
    simp only [supervisorLoop, countRespawns]
    cases hcl : classifyChild policy o <;>
      simp [hcl, Nat.mod_eq_of_lt hc]
    rw [ih (nextCtr c) (Nat.mod_lt _ U64_MOD_pos)]
    show ((c + 1) % U64_MOD + countRespawns policy rest) % U64_MOD =
      (c + (countRespawns policy rest + 1)) % U64_MOD
    rw [Nat.mod_add_mod]
    congr 1
    omega

/-- C9 counterexample: the generation counter advances with
`ctr.wrapping_add(1)`, not saturating arithmetic — after a respawn at
`ctr = 2^64 - 1` the counter is `0`, strictly below its previous value
(a saturating, monotonically increasing counter would have stayed at
`2^64 - 1`). -/
theorem ctr_wraps_not_saturating :
    (supervisorLoop .OnRestart (U64_MOD - 1) [⟨0, false, true⟩]).ctr = 0 ∧
    (supervisorLoop .OnRestart (U64_MOD - 1) [⟨0, false, true⟩]).ctr <
      U64_MOD - 1 := by
  have h : (supervisorLoop .OnRestart (U64_MOD - 1) [⟨0, false, true⟩]).ctr
      = 0 := by
    simp [supervisorLoop, classifyChild, CTRL_C_EXIT,
      LlmpShouldSaveState.oom_safe, nextCtr, U64_MOD]
  refine ⟨h, ?_⟩
  rw [h]
  norm_num [U64_MOD]

/-- C9 (amended): the generation counter is owned by the supervisor loop,
incremented exactly once per respawn answer (`wrapping_add(1)`, i.e. by
one modulo `2^64` — wrapping, not saturating, so monotone only until an
overflow wrap), and is diagnostics-only: its value never affects which
branch the loop takes, how it exits, how many instances it launches, or
whether it detaches. -/
theorem ctr_diagnostics_only_and_wrapping
    (policy : LlmpShouldSaveState) (c c' : Nat) (os : List ChildOutcome)
    (hc : c < U64_MOD) :
    (supervisorLoop policy c os).exit = (supervisorLoop policy c' os).exit ∧
    (supervisorLoop policy c os).launched =
      (supervisorLoop policy c' os).launched ∧
    (supervisorLoop policy c os).detached =
      (supervisorLoop policy c' os).detached ∧
    (supervisorLoop policy c os).ctr =
      (c + countRespawns policy os) % U64_MOD := by
  obtain ⟨h1, h2, h3⟩ := loop_result_ctr_independent policy os c c'
  exact ⟨h1, h2, h3, loop_ctr_counts_respawns policy os c hc⟩

theorem ctr_diagnostics_only_and_wrapping_witness :
    (supervisorLoop .OnRestart 0
        [⟨1, false, true⟩, ⟨CTRL_C_EXIT, false, true⟩]).exit =
      (supervisorLoop .OnRestart 7
        [⟨1, false, true⟩, ⟨CTRL_C_EXIT, false, true⟩]).exit ∧
    (supervisorLoop .OnRestart 0
        [⟨1, false, true⟩, ⟨CTRL_C_EXIT, false, true⟩]).launched =
      (supervisorLoop .OnRestart 7
        [⟨1, false, true⟩, ⟨CTRL_C_EXIT, false, true⟩]).launched ∧
    (supervisorLoop .OnRestart 0
        [⟨1, false, true⟩, ⟨CTRL_C_EXIT, false, true⟩]).detached =
      (supervisorLoop .OnRestart 7
        [⟨1, false, true⟩, ⟨CTRL_C_EXIT, false, true⟩]).detached ∧
    (supervisorLoop .OnRestart 0
        [⟨1, false, true⟩, ⟨CTRL_C_EXIT, false, true⟩]).ctr =
      (0 + countRespawns .OnRestart
        [⟨1, false, true⟩, ⟨CTRL_C_EXIT, false, true⟩]) % U64_MOD :=
  ctr_diagnostics_only_and_wrapping .OnRestart 0 7
    [⟨1, false, true⟩, ⟨CTRL_C_EXIT, false, true⟩] (by decide)

/-- C4: every `on_restart(state)` call first resets the channel, then
publishes exactly one payload — the serialized state when the policy
permits saving on restart, else `None`, paired with the endpoint's current
reconnection descriptor — and then blocks in `await_restart_safe`; the
reset precedes the publish in the same call, and the channel afterwards
holds exactly that payload. -/
theorem on_restart_resets_then_publishes {St D : Type}
    (m : LlmpRestartingEventManager St D) (state : St) :
    (m.on_restart (E := Unit) state).2 =
      [.chanReset,
       .chanSave (if m.save_state.on_restart then some state else none,
         m.llmp_mgr.describe),
       .awaitRestartSafe] ∧
    (m.on_restart (E := Unit) state).1.staterestorer.content =
      some (if m.save_state.on_restart then some state else none,
        m.llmp_mgr.describe) :=
  ⟨rfl, rfl⟩

/-- C5: policy gating.  `Never`: no operation publishes a non-empty
durable-state snapshot (`on_restart` publishes `(None, descriptor)`;
`fire` and `process` publish nothing).  `OOMSafe`: every successful `fire`
forwards the event and then publishes `(None, current descriptor)`.
`OnRestart`: only `on_restart` publishes a state snapshot; `fire` and
`process` publish nothing. -/
theorem policy_gating {E St D : Type} :
    (∀ (m : LlmpRestartingEventManager St D) (state : St) (e : E) (n : Nat),
      m.save_state = .Never →
        savedSnapshots ((m.on_restart (E := E) state).2) = [none] ∧
        (m.fire e).2 = [.forward e] ∧
        (m.process (E := E) n).2 = [.processEvents n]) ∧
    (∀ (m : LlmpRestartingEventManager St D) (e : E),
      m.save_state = .OOMSafe →
        (m.fire e).2 =
          [.forward e, .chanReset, .chanSave (none, m.llmp_mgr.describe)]) ∧
    (∀ (m : LlmpRestartingEventManager St D) (state : St) (e : E) (n : Nat),
      m.save_state = .OnRestart →
        savedSnapshots ((m.on_restart (E := E) state).2) = [some state] ∧
        (m.fire e).2 = [.forward e] ∧
        (m.process (E := E) n).2 = [.processEvents n]) := by
  refine ⟨?_, ?_, ?_⟩
  · intro m state e n hs
    refine ⟨?_, ?_, ?_⟩ <;>
      simp [LlmpRestartingEventManager.on_restart,
        LlmpRestartingEventManager.fire, LlmpRestartingEventManager.process,
        LlmpRestartingEventManager.intermediate_save, savedSnapshots, hs,
        LlmpShouldSaveState.on_restart, LlmpShouldSaveState.oom_safe]
  · intro m e hs
    simp [LlmpRestartingEventManager.fire,
      LlmpRestartingEventManager.intermediate_save, hs,
      LlmpShouldSaveState.oom_safe]
  · intro m state e n hs
    refine ⟨?_, ?_, ?_⟩ <;>
      simp [LlmpRestartingEventManager.on_restart,
        LlmpRestartingEventManager.fire, LlmpRestartingEventManager.process,
        LlmpRestartingEventManager.intermediate_save, savedSnapshots, hs,
        LlmpShouldSaveState.on_restart, LlmpShouldSaveState.oom_safe]

theorem policy_gating_witness :
    (savedSnapshots ((LlmpRestartingEventManager.on_restart (E := Unit)
        (⟨⟨7, .fromEnv⟩, ⟨none, false⟩, .Never⟩ :
          LlmpRestartingEventManager Nat Nat) 5).2) = [none] ∧
      ((⟨⟨7, .fromEnv⟩, ⟨none, false⟩, .Never⟩ :
        LlmpRestartingEventManager Nat Nat).fire ()).2 = [.forward ()] ∧
      (LlmpRestartingEventManager.process (E := Unit)
        (⟨⟨7, .fromEnv⟩, ⟨none, false⟩, .Never⟩ :
          LlmpRestartingEventManager Nat Nat) 2).2 = [.processEvents 2]) ∧
    ((⟨⟨7, .fromEnv⟩, ⟨none, false⟩, .OOMSafe⟩ :
        LlmpRestartingEventManager Nat Nat).fire ()).2 =
      [.forward (), .chanReset, .chanSave (none, 7)] ∧
    (savedSnapshots ((LlmpRestartingEventManager.on_restart (E := Unit)
        (⟨⟨7, .fromEnv⟩, ⟨none, false⟩, .OnRestart⟩ :
          LlmpRestartingEventManager Nat Nat) 5).2) = [some 5] ∧
      ((⟨⟨7, .fromEnv⟩, ⟨none, false⟩, .OnRestart⟩ :
        LlmpRestartingEventManager Nat Nat).fire ()).2 = [.forward ()] ∧
      (LlmpRestartingEventManager.process (E := Unit)
        (⟨⟨7, .fromEnv⟩, ⟨none, false⟩, .OnRestart⟩ :
          LlmpRestartingEventManager Nat Nat) 2).2 = [.processEvents 2]) :=
  ⟨policy_gating.1 _ 5 () 2 rfl, policy_gating.2.1 _ () rfl,
   policy_gating.2.2 _ 5 () 2 rfl⟩

theorem launchEpilogue_preserves_mgr {E St D : Type}
    (m : LlmpRestartingEventManager St D) :
    (launchEpilogue (E := E) m).1.llmp_mgr = m.llmp_mgr ∧
    (launchEpilogue (E := E) m).1.save_state = m.save_state := by
  by_cases h : m.save_state.oom_safe = true <;>
    simp [launchEpilogue, LlmpRestartingEventManager.intermediate_save, h]

theorem launchEpilogue_content {E St D : Type}
    (m : LlmpRestartingEventManager St D) :
    (launchEpilogue (E := E) m).1.staterestorer.content =
      (if m.save_state.oom_safe then some (none, m.llmp_mgr.describe)
       else none) := by
  by_cases h : m.save_state.oom_safe = true <;>
    simp [launchEpilogue, LlmpRestartingEventManager.intermediate_save, h,
      StateRestorer.reset, StateRestorer.save]

/-- C6: the worker side of `launch` (channel handle found in the
environment, or reached over the fork) calls `restore()` on the imported
channel; a present payload makes `launch` return exactly the payload's
optional durable state with an endpoint rebuilt from the payload's
reconnection descriptor; an absent payload yields `None` with an endpoint
built from the initial broker-client environment handle. -/
theorem launch_worker_restore {St D : Type} (ss : LlmpShouldSaveState)
    (chan : StateRestorer St D) (envDescriptor : D) :
    (∀ (state_opt : Option St) (d : D),
      chan.restore = some (state_opt, d) →
        (launchWorkerSide ss chan envDescriptor).1 = state_opt ∧
        (launchWorkerSide ss chan envDescriptor).2.llmp_mgr =
          LlmpEventManager.buildFromDescription d ∧
        (launchWorkerSide ss chan envDescriptor).2.save_state = ss) ∧
    (chan.restore = none →
      (launchWorkerSide ss chan envDescriptor).1 = none ∧
      (launchWorkerSide ss chan envDescriptor).2.llmp_mgr =
        LlmpEventManager.buildFromEnv envDescriptor ∧
      (launchWorkerSide ss chan envDescriptor).2.save_state = ss) := by
  constructor
  · intro state_opt d h
    have hpres := launchEpilogue_preserves_mgr (E := Unit)
      (LlmpRestartingEventManager.with_save_state
        (LlmpEventManager.buildFromDescription d) chan ss)
    refine ⟨?_, ?_, ?_⟩ <;>
      simp_all [launchWorkerSide, LlmpRestartingEventManager.with_save_state]
  · intro h
    have hpres := launchEpilogue_preserves_mgr (E := Unit)
      (LlmpRestartingEventManager.with_save_state
        (LlmpEventManager.buildFromEnv envDescriptor) chan ss)
    refine ⟨?_, ?_, ?_⟩ <;>
      simp_all [launchWorkerSide, LlmpRestartingEventManager.with_save_state]

theorem launch_worker_restore_witness :
    ((launchWorkerSide .OnRestart
        (⟨some (some 5, 7), false⟩ : StateRestorer Nat Nat) 9).1 = some 5 ∧
      (launchWorkerSide .OnRestart
        (⟨some (some 5, 7), false⟩ : StateRestorer Nat Nat) 9).2.llmp_mgr =
        LlmpEventManager.buildFromDescription 7 ∧
      (launchWorkerSide .OnRestart
        (⟨some (some 5, 7), false⟩ : StateRestorer Nat Nat) 9).2.save_state =
        .OnRestart) ∧
    ((launchWorkerSide .OnRestart
        (⟨none, false⟩ : StateRestorer Nat Nat) 9).1 = none ∧
      (launchWorkerSide .OnRestart
        (⟨none, false⟩ : StateRestorer Nat Nat) 9).2.llmp_mgr =
        LlmpEventManager.buildFromEnv 9 ∧
      (launchWorkerSide .OnRestart
        (⟨none, false⟩ : StateRestorer Nat Nat) 9).2.save_state =
        .OnRestart) :=
  ⟨(launch_worker_restore .OnRestart ⟨some (some 5, 7), false⟩ 9).1
      (some 5) 7 rfl,
   (launch_worker_restore .OnRestart ⟨none, false⟩ 9).2 rfl⟩

/-- C7: on the broker paths of `launch` (`ManagerKind::Broker`, or
`ManagerKind::Any` when the rendezvous yields `IsBroker`), `launch` never
returns `Ok`: `broker_things` itself always returns an error, and both
arms surface a shutting-down error, a propagated error, or the
`unreachable!` panic — never a success value. -/
theorem broker_paths_never_ok (remote_broker_addr : Option Nat)
    (connectOutcome : Except Nat Unit) :
    (∃ e, broker_things remote_broker_addr connectOutcome = .error e) ∧
    (∃ e, launchBrokerAny remote_broker_addr connectOutcome = .error e) ∧
    (∃ e, launchBrokerForced remote_broker_addr connectOutcome = .error e) ∧
    (broker_things remote_broker_addr connectOutcome =
        .error .shuttingDown ∨
      ∃ n, broker_things remote_broker_addr connectOutcome =
        .error (.other n)) := by
  cases remote_broker_addr with
  | none => simp [broker_things, launchBrokerAny, launchBrokerForced]
  | some a =>
    cases connectOutcome <;>
      simp [broker_things, launchBrokerAny, launchBrokerForced]

/-- C8: the tail every new worker instance runs before `launch` returns
destroys the channel's previous payload: a plain reset (one `chanReset`,
content `None`) — or, under `OOMSafe`, a reset immediately followed by a
republish of an empty-state payload — so the content after the epilogue is
independent of whatever payload a prior instance had left; the same holds
at the end of the whole worker-side `launch` path. -/
theorem fresh_instance_destroys_stale_payload {St D : Type}
    (m : LlmpRestartingEventManager St D) :
    (launchEpilogue (E := Unit) m).2 =
      (if m.save_state.oom_safe then
        [.chanReset, .chanSave (none, m.llmp_mgr.describe)]
      else [.chanReset]) ∧
    (launchEpilogue (E := Unit) m).1.staterestorer.content =
      (if m.save_state.oom_safe then some (none, m.llmp_mgr.describe)
       else none) ∧
    (∀ (ss : LlmpShouldSaveState) (chan : StateRestorer St D) (envD : D),
      (launchWorkerSide ss chan envD).2.staterestorer.content =
        (if ss.oom_safe then
          some (none, (launchWorkerSide ss chan envD).2.llmp_mgr.describe)
        else none)) := by
  refine ⟨?_, launchEpilogue_content m, ?_⟩
  · by_cases h : m.save_state.oom_safe = true <;>
      simp [launchEpilogue, LlmpRestartingEventManager.intermediate_save, h]
  · intro ss chan envD
    cases hres : chan.restore with
    | some p =>
      obtain ⟨so, d⟩ := p
      simp only [launchWorkerSide, hres]
      rw [launchEpilogue_content, (launchEpilogue_preserves_mgr _).1]
      simp [LlmpRestartingEventManager.with_save_state]
    | none =>
      simp only [launchWorkerSide, hres]
      rw [launchEpilogue_content, (launchEpilogue_preserves_mgr _).1]
      simp [LlmpRestartingEventManager.with_save_state]

/-- C10: unstated defaults at the public interface:
`LlmpRestartingEventManager::new` hard-wires the `OnRestart` policy, and
the `RestartingMgr` builder defaults are `serialize_state = OnRestart`,
`kind = ManagerKind::Any`, `broker_port = 1337`. -/
theorem public_interface_defaults {St D : Type}
    (llmp_mgr : LlmpEventManager D) (staterestorer : StateRestorer St D) :
    (LlmpRestartingEventManager.new llmp_mgr staterestorer).save_state =
      .OnRestart ∧
    RestartingMgrDefaults.declared.serialize_state = .OnRestart ∧
    RestartingMgrDefaults.declared.kind = .Any ∧
    RestartingMgrDefaults.declared.broker_port = 1337 :=
  ⟨rfl, rfl, rfl, rfl⟩

end LibAFL
